import Mathlib

/-!
Shallow embedding of the DDPG agent in `src/algorithms/ddpg/agent.py`.

Numeric values are modelled over an arbitrary linear ordered field `α`
(instantiated at `ℚ` for concrete evaluations and at `ℝ` where the
`tanh` output activation matters).  Network internals, automatic
differentiation and the optimizers are external collaborators of the
core (per the spec) and are modelled as opaque function-valued fields of
a `Torch` record.  Randomness (uniform buffer draws, exploration noise,
random warm-up actions) is passed in explicitly as oracle arguments.
-/

set_option linter.unusedVariables false
set_option linter.unusedSectionVars false

namespace DDPG

variable {α : Type} [LinearOrderedField α]

/-- One stored transition `(state, action, reward, next_state, done_bool)`
(`agent.py` line 194). -/
structure Transition (α : Type) where
  state : List α
  action : List α
  reward : α
  next_state : List α
  done_bool : Bool
  deriving DecidableEq

/-- External-collaborator oracles: forward passes of the (opaque) networks,
the autodiff gradients, gradient-norm clipping and the Adam optimizer steps.
Network parameters are abstracted as flat parameter vectors `List α`. -/
structure Torch (α : Type) where
  actorForward : List α → List α → List α
  criticForward : List α → List α → α
  actorGrad : α → List α → List α
  criticGrad : α → List α → List α
  clip_grad_norm : List α → α → List α
  actorOptimStep : List α → List α → List α
  criticOptimStep : List α → List α → List α

/-- The hyperparameters and run settings read by the agent
(`agent.py` lines 71-92). -/
structure Config (α : Type) where
  test : Bool
  max_episode_steps : ℕ
  initial_random_action : ℕ
  buffer_size : ℕ
  batch_size : ℕ
  multiple_learn : ℕ
  gamma : α
  tau : α
  gradient_clip_ac : α
  gradient_clip_cr : α
  deriving DecidableEq

/-- Modelled from the spec: the replay buffer implementation
(`algorithms/common/buffer/replay_buffer.py`) is not under `src/`.
The spec describes an ordered ring of transitions with fixed maximum
capacity `buffer_size`, FIFO-overwrite once full. -/
structure ReplayBuffer (α : Type) where
  buffer_size : ℕ
  batch_size : ℕ
  data : List (Transition α)
  deriving DecidableEq

/-- Modelled from the spec: `add(transition)` appends and overwrites the
oldest entry when at capacity; it always succeeds. -/
def ReplayBuffer.add (m : ReplayBuffer α) (t : Transition α) : ReplayBuffer α :=
  if m.data.length < m.buffer_size then { m with data := m.data ++ [t] }
  else { m with data := m.data.tail ++ [t] }

/-- The five parallel sequences returned by `memory.sample()`
(`agent.py` line 206); `done` flags are cast to `0`/`1` scalars as the
update arithmetic `1 - dones` requires. -/
structure Batch (α : Type) where
  states : List (List α)
  actions : List (List α)
  rewards : List α
  next_states : List (List α)
  dones : List α
  deriving DecidableEq

/-- Modelled from the spec: `sample()` stacks `batch_size` uniformly drawn
transitions into five parallel sequences.  The uniform random draws are
supplied as the index list `idxs` (reduced modulo the current length). -/
def ReplayBuffer.sample (m : ReplayBuffer α) (idxs : List ℕ) : Batch α :=
  let chosen := idxs.map fun i => m.data.getD (i % m.data.length) ⟨[], [], 0, [], false⟩
  { states := chosen.map Transition.state
    actions := chosen.map Transition.action
    rewards := chosen.map Transition.reward
    next_states := chosen.map Transition.next_state
    dones := chosen.map fun t => if t.done_bool then (1 : α) else 0 }

/-- The mutable fields of `DDPGAgent` used by the core algorithm:
the four network parameter vectors, the two optimizer states, the replay
memory (absent in test mode), `curr_state` and the step counters. -/
structure AgentState (α : Type) where
  actor : List α
  actor_target : List α
  critic : List α
  critic_target : List α
  actor_optim : List α
  critic_optim : List α
  memory : Option (ReplayBuffer α)
  curr_state : List α
  total_step : ℕ
  episode_step : ℕ
  i_episode : ℕ
  deriving DecidableEq

/-- `len(self.memory)` (`agent.py` line 328); `0` when no buffer exists. -/
def memoryLen (ag : AgentState α) : ℕ :=
  match ag.memory with
  | some m => m.data.length
  | none => 0

/-- `self.memory.sample()` (`agent.py` line 205).  In the source
`self.memory` always exists when `update_model` runs (it is only called
from the training loop); the `none` branch is unreachable there. -/
def memorySample (om : Option (ReplayBuffer α)) (idxs : List ℕ) : Batch α :=
  match om with
  | some m => m.sample idxs
  | none => ⟨[], [], [], [], []⟩

/-- `torch.Tensor.mean()` over a flat batch. -/
def mean (l : List α) : α := l.sum / (l.length : α)

/-- `F.mse_loss(pred, target)`: mean of squared componentwise differences. -/
def mse_loss (pred target : List α) : α :=
  mean (List.zipWith (fun a b => (a - b) ^ 2) pred target)

/-- Three-way `zipWith`, used for the per-sample TD-target arithmetic. -/
def zipWith3 {a b c d : Type} (f : a → b → c → d) : List a → List b → List c → List d
  | x :: xs, y :: ys, z :: zs => f x y z :: zipWith3 f xs ys zs
  | _, _, _ => []

/-- Modelled from the spec: `common_utils.soft_update`
(`algorithms/common/helper_functions.py`) is not under `src/`; the spec
gives `target ← tau * live + (1 - tau) * target` for every parameter pair. -/
def soft_update (localNet targetNet : List α) (tau : α) : List α :=
  List.zipWith (fun l t => tau * l + (1 - tau) * t) localNet targetNet

/-- The bootstrapped TD targets of `update_model` (`agent.py` lines 208-214):
`masks = 1 - dones`; `next_actions = actor_target(next_states)`;
`next_values = critic_target(cat(next_states, next_actions))`;
`curr_returns = rewards + gamma * next_values * masks`. -/
def curr_returns (T : Torch α) (gamma : α) (actor_target critic_target : List α)
    (b : Batch α) : List α :=
  let masks := b.dones.map fun d => 1 - d
  let next_actions := b.next_states.map (T.actorForward actor_target)
  let next_values :=
    List.zipWith (fun s a => T.criticForward critic_target (s ++ a)) b.next_states next_actions
  zipWith3 (fun r v mk => r + gamma * v * mk) b.rewards next_values masks

/-- `self.critic(torch.cat((states, actions), dim=-1))` (`agent.py` line 217),
applied row by row over the batch. -/
def critic_values (T : Torch α) (critic : List α) (b : Batch α) : List α :=
  List.zipWith (fun s a => T.criticForward critic (s ++ a)) b.states b.actions

/-- The critic parameters after `zero_grad`, `backward`, gradient-norm
clipping at `gradient_clip_cr` and one `critic_optim.step()`
(`agent.py` lines 219-222). -/
def critic_after_step (T : Torch α) (cfg : Config α) (critic : List α) (loss : α) : List α :=
  T.criticOptimStep critic (T.clip_grad_norm (T.criticGrad loss critic) cfg.gradient_clip_cr)

/-- `actor_loss = -self.critic(torch.cat((states, actions), dim=-1)).mean()`
with `actions = self.actor(states)` recomputed fresh (`agent.py` lines 225-226);
`critic` here is whatever parameter vector the live critic currently holds. -/
def actor_loss_val (T : Torch α) (critic actor : List α) (b : Batch α) : α :=
  -(mean (b.states.map fun s => T.criticForward critic (s ++ T.actorForward actor s)))

/-- The observable stages of one `update_model` call, in execution order. -/
inductive UpdateEvent where
  | sampleBuffer
  | criticOptStep
  | actorOptStep
  | softUpdateActor
  | softUpdateCritic
  deriving DecidableEq

/-- The result of one `update_model` call: the mutated agent, the two
returned losses (`agent.py` line 236) and the trace of stages executed. -/
structure UpdateResult (α : Type) where
  agent : AgentState α
  actor_loss : α
  critic_loss : α
  events : List UpdateEvent

/-- `DDPGAgent.update_model` (`agent.py` lines 203-236). -/
def update_model (T : Torch α) (cfg : Config α) (ag : AgentState α) (idxs : List ℕ) :
    UpdateResult α :=
  -- line 205: experiences = self.memory.sample()
  let b := memorySample ag.memory idxs
  let events := [UpdateEvent.sampleBuffer]
  -- lines 208-214: bootstrapped TD target with masks = 1 - dones
  let targets := curr_returns T cfg.gamma ag.actor_target ag.critic_target b
  -- lines 216-222: critic loss, then one clipped critic optimizer step
  let values := critic_values T ag.critic b
  let critic_loss := mse_loss values targets
  let critic1 := critic_after_step T cfg ag.critic critic_loss
  let events := events ++ [UpdateEvent.criticOptStep]
  -- lines 224-230: actor loss from a fresh actor forward pass through the
  -- live (just-updated) critic, then one clipped actor optimizer step
  let actor_loss := actor_loss_val T critic1 ag.actor b
  let actor1 :=
    T.actorOptimStep ag.actor (T.clip_grad_norm (T.actorGrad actor_loss ag.actor) cfg.gradient_clip_ac)
  let events := events ++ [UpdateEvent.actorOptStep]
  -- lines 232-234: soft-update both target networks
  let actor_target1 := soft_update actor1 ag.actor_target cfg.tau
  let events := events ++ [UpdateEvent.softUpdateActor]
  let critic_target1 := soft_update critic1 ag.critic_target cfg.tau
  let events := events ++ [UpdateEvent.softUpdateCritic]
  { agent :=
      { ag with
          actor := actor1
          critic := critic1
          actor_target := actor_target1
          critic_target := critic_target1 }
    actor_loss := actor_loss
    critic_loss := critic_loss
    events := events }

/-- `np.clip(x, -1.0, 1.0)` applied to one component. -/
def clip1 (x : α) : α := min 1 (max (-1) x)

/-- `DDPGAgent.select_action` (`agent.py` lines 162-177).  The environment
action-space sample and the OU-noise sample for this call are supplied as
the oracle arguments `randomAction` and `noiseSample`. -/
def select_action (T : Torch α) (cfg : Config α) (ag : AgentState α) (state : List α)
    (randomAction noiseSample : List α) : AgentState α × List α :=
  -- line 164: self.curr_state = state
  let ag1 := { ag with curr_state := state }
  -- lines 168-169: random warm-up action (training mode only)
  if ag1.total_step < cfg.initial_random_action ∧ cfg.test = false then
    (ag1, randomAction)
  else
    -- line 171: selected_action = self.actor(state)
    let selected := T.actorForward ag1.actor state
    -- lines 173-175: additive exploration noise and clipping (training mode only)
    if cfg.test = false then
      (ag1, (List.zipWith (fun x n => x + n) selected noiseSample).map clip1)
    else
      (ag1, selected)

/-- One `env.step(action)` response `(next_state, reward, done, info)`. -/
structure EnvResponse (α : Type) where
  next_state : List α
  reward : α
  done : Bool
  deriving DecidableEq

/-- `DDPGAgent.step` (`agent.py` lines 185-197): outside test mode, store
the transition with the truncation-aware done flag
`done_bool = False if episode_step == max_episode_steps else done`. -/
def step (cfg : Config α) (ag : AgentState α) (action : List α) (resp : EnvResponse α) :
    AgentState α × EnvResponse α :=
  if cfg.test = false then
    let done_bool := if ag.episode_step = cfg.max_episode_steps then false else resp.done
    let transition : Transition α :=
      ⟨ag.curr_state, action, resp.reward, resp.next_state, done_bool⟩
    ({ ag with memory := ag.memory.map fun m => m.add transition }, resp)
  else
    (ag, resp)

/-- The randomness consumed by one iteration of the training step loop:
the `env.action_space.sample()` value and the `noise.sample()` value. -/
structure StepRand (α : Type) where
  random_action : List α
  noise : List α
  deriving DecidableEq

/-- What one iteration of the `while not done` loop of `train`
(`agent.py` lines 319-334) did: the `episode_step` value read by the
truncation check in `step`, the `len(self.memory)` value read by the update gate,
and the `len(self.memory)` value observed at each `update_model` call. -/
structure IterRecord where
  checkValue : ℕ
  memLen : ℕ
  updateCalls : List ℕ
  deriving DecidableEq

/-- `for _ in range(self.multiple_learn): loss = self.update_model()`
(`agent.py` lines 329-331).  Returns the final agent, the advanced
buffer-draw oracle counter and the buffer length observed at each call. -/
def runUpdates (T : Torch α) (cfg : Config α) (idxO : ℕ → List ℕ) :
    ℕ → AgentState α → ℕ → AgentState α × ℕ × List ℕ
  | 0, ag, cnt => (ag, cnt, [])
  | n + 1, ag, cnt =>
      let len := memoryLen ag
      let ag1 := (update_model T cfg ag (idxO cnt)).agent
      let r := runUpdates T cfg idxO n ag1 (cnt + 1)
      (r.1, r.2.1, len :: r.2.2)

/-- The `while not done` step loop of `DDPGAgent.train`
(`agent.py` lines 319-334).  The environment is scripted: each list entry
is the `env.step` response together with the randomness consumed by that
iteration; an exhausted script ends the recursion (the source loop runs
until the environment signals `done`). -/
def train_loop (T : Torch α) (cfg : Config α) (idxO : ℕ → List ℕ) :
    List (EnvResponse α × StepRand α) → AgentState α → List α → ℕ →
    AgentState α × List IterRecord
  | [], ag, _, _ => (ag, [])
  | (resp, rnd) :: rest, ag, state, cnt =>
      -- line 323: action = self.select_action(state)
      let sa := select_action T cfg ag state rnd.random_action rnd.noise
      let ag1 := sa.1
      -- line 324: next_state, reward, done, _ = self.step(action);
      -- checkValue is the episode_step value read inside the truncation check of step
      let checkValue := ag1.episode_step
      let ag2 := (step cfg ag1 sa.2 resp).1
      -- lines 325-326: self.total_step += 1; self.episode_step += 1
      let ag3 := { ag2 with total_step := ag2.total_step + 1,
                            episode_step := ag2.episode_step + 1 }
      -- lines 328-331: if len(self.memory) >= self.batch_size: run the updates
      let gateLen := memoryLen ag3
      let upd := if cfg.batch_size ≤ gateLen
                 then runUpdates T cfg idxO cfg.multiple_learn ag3 cnt
                 else (ag3, cnt, [])
      let rec1 : IterRecord := ⟨checkValue, gateLen, upd.2.2⟩
      -- loop condition: while not done
      if resp.done then (upd.1, [rec1])
      else
        let r := train_loop T cfg idxO rest upd.1 resp.next_state upd.2.1
        (r.1, rec1 :: r.2)

/-- One episode of `DDPGAgent.train` (`agent.py` lines 311-334):
`state = env.reset()` (the argument `state0`), `self.episode_step = 0`,
then the step loop. -/
def train_episode (T : Torch α) (cfg : Config α) (idxO : ℕ → List ℕ)
    (script : List (EnvResponse α × StepRand α)) (ag : AgentState α) (state0 : List α) :
    AgentState α × List IterRecord :=
  train_loop T cfg idxO script { ag with episode_step := 0 } state0 0

/-- The components created during agent construction, in creation order. -/
inductive CreateEvent where
  | createActor
  | createActorTarget
  | createCritic
  | createCriticTarget
  | createActorOptim
  | createCriticOptim
  | createReplayBuffer
  deriving DecidableEq

/-- The fresh randomly initialized parameter vectors produced by the four
`MLP(...)` constructor calls and the two `optim.Adam(...)` calls of
`_init_network`, in creation order. -/
structure InitOracle (α : Type) where
  fresh_actor : List α
  fresh_actor_target : List α
  fresh_critic : List α
  fresh_critic_target : List α
  fresh_actor_optim : List α
  fresh_critic_optim : List α
  deriving DecidableEq

/-- torch `Module.load_state_dict`: overwrites the current parameters of
the module with the given state dict. -/
def load_state_dict (current source : List α) : List α := source

/-- The six network/optimizer slots assigned by `_init_network`. -/
structure Networks (α : Type) where
  actor : List α
  actor_target : List α
  critic : List α
  critic_target : List α
  actor_optim : List α
  critic_optim : List α
  deriving DecidableEq

/-- `DDPGAgent._init_network` (`agent.py` lines 104-147): create the four
networks — each target is created fresh and then synchronized to its live
copy via `load_state_dict` — and the two optimizers.  The subsequent
conditional checkpoint restore (lines 149-151) is modelled separately by
`load_params`. -/
def init_network (o : InitOracle α) : Networks α × List CreateEvent :=
  -- lines 107-112: self.actor = MLP(...)
  let actor := o.fresh_actor
  -- lines 114-120: self.actor_target = MLP(...); load_state_dict(actor)
  let actor_target := o.fresh_actor_target
  let actor_target := load_state_dict actor_target actor
  -- lines 123-127: self.critic = MLP(...)
  let critic := o.fresh_critic
  -- lines 129-134: self.critic_target = MLP(...); load_state_dict(critic)
  let critic_target := o.fresh_critic_target
  let critic_target := load_state_dict critic_target critic
  -- lines 137-147: the two Adam optimizers
  let actor_optim := o.fresh_actor_optim
  let critic_optim := o.fresh_critic_optim
  (⟨actor, actor_target, critic, critic_target, actor_optim, critic_optim⟩,
   [CreateEvent.createActor, CreateEvent.createActorTarget, CreateEvent.createCritic,
    CreateEvent.createCriticTarget, CreateEvent.createActorOptim, CreateEvent.createCriticOptim])

/-- `DDPGAgent.__init__` state setup plus `_initialize`
(`agent.py` lines 73-76 and 153-160): zero the counters, set
`curr_state = np.zeros((1,))`, build the networks, and create the replay
buffer only outside test mode. -/
def init_agent (cfg : Config α) (o : InitOracle α) : AgentState α × List CreateEvent :=
  let n := init_network o
  let memory : Option (ReplayBuffer α) :=
    if cfg.test = false then some ⟨cfg.buffer_size, cfg.batch_size, []⟩ else none
  let events := n.2 ++ (if cfg.test = false then [CreateEvent.createReplayBuffer] else [])
  ({ actor := n.1.actor
     actor_target := n.1.actor_target
     critic := n.1.critic
     critic_target := n.1.critic_target
     actor_optim := n.1.actor_optim
     critic_optim := n.1.critic_optim
     memory := memory
     curr_state := [0]
     total_step := 0
     episode_step := 0
     i_episode := 0 }, events)

/-- The checkpoint bundle written by `save_params` and read by
`load_params` (`agent.py` lines 244-250 and 255-262). -/
structure Checkpoint (α : Type) where
  actor_state_dict : List α
  actor_target_state_dict : List α
  critic_state_dict : List α
  critic_target_state_dict : List α
  actor_optim_state_dict : List α
  critic_optim_state_dict : List α
  deriving DecidableEq

/-- `DDPGAgent.load_params` (`agent.py` lines 238-251).  The filesystem is
modelled as a map from paths to optionally present checkpoints; a missing
path prints an error and returns without touching the agent.  The second
component is the list of messages printed. -/
def load_params (fs : String → Option (Checkpoint α)) (ag : AgentState α) (path : String) :
    AgentState α × List String :=
  match fs path with
  | none => (ag, ["[ERROR] the input path does not exist. -> " ++ path])
  | some params =>
      ({ ag with
          actor := load_state_dict ag.actor params.actor_state_dict
          actor_target := load_state_dict ag.actor_target params.actor_target_state_dict
          critic := load_state_dict ag.critic params.critic_state_dict
          critic_target := load_state_dict ag.critic_target params.critic_target_state_dict
          actor_optim := load_state_dict ag.actor_optim params.actor_optim_state_dict
          critic_optim := load_state_dict ag.critic_optim params.critic_optim_state_dict },
       ["[INFO] loaded the model and optimizer from " ++ path])

/-- Modelled from the spec: one linear layer of the `MLP` network class
(`algorithms/common/networks/mlp.py` is not under `src/`); a weight matrix
and a bias vector. -/
structure LinearLayer where
  weight : List (List ℝ)
  bias : List ℝ

/-- Dot product of a weight row with the layer input. -/
def dot (w x : List ℝ) : ℝ := (List.zipWith (fun a b => a * b) w x).sum

/-- Affine map of one linear layer. -/
def LinearLayer.forward (l : LinearLayer) (x : List ℝ) : List ℝ :=
  List.zipWith (fun w b => dot w x + b) l.weight l.bias

/-- ReLU activation. -/
def relu (x : ℝ) : ℝ := max x 0

/-- Modelled from the spec: the actor network — an `MLP` with hidden layers
and `output_activation=torch.tanh` (`agent.py` lines 107-112); the actor
maps a state to an action vector bounded componentwise to `[-1, 1]`. -/
structure ActorMLP where
  hidden : List LinearLayer
  out : LinearLayer

/-- Modelled from the spec: the actor forward pass — hidden layers with
ReLU activations, then the output layer with `torch.tanh` applied
componentwise. -/
noncomputable def ActorMLP.forward (m : ActorMLP) (x : List ℝ) : List ℝ :=
  (m.out.forward (m.hidden.foldl (fun h l => (l.forward h).map relu) x)).map Real.tanh

/-- A `Torch` oracle over `ℝ` whose actor forward pass is the given
tanh-output MLP (the remaining collaborators are irrelevant stubs for the
action-selection claims). -/
noncomputable def torch_mlp (m : ActorMLP) : Torch ℝ :=
  { actorForward := fun _ s => m.forward s
    criticForward := fun _ x => x.sum
    actorGrad := fun _ p => p
    criticGrad := fun _ p => p
    clip_grad_norm := fun g _ => g
    actorOptimStep := fun p _ => p
    criticOptimStep := fun p _ => p }

/-- A concrete `Torch` oracle over `ℚ` for evaluating the embedding. -/
def torch0 : Torch ℚ :=
  { actorForward := fun _ s => s
    criticForward := fun _ x => x.sum
    actorGrad := fun _ p => p
    criticGrad := fun _ p => p
    clip_grad_norm := fun g _ => g
    actorOptimStep := fun p _ => p
    criticOptimStep := fun p _ => p }

/-- A concrete training-mode configuration. -/
def cfg0 : Config ℚ :=
  { test := false
    max_episode_steps := 3
    initial_random_action := 0
    buffer_size := 4
    batch_size := 1
    multiple_learn := 2
    gamma := 1 / 2
    tau := 1 / 10
    gradient_clip_ac := 1
    gradient_clip_cr := 1 }

/-- The same configuration in evaluation (test) mode. -/
def cfgTest : Config ℚ := { cfg0 with test := true }

/-- Concrete fresh-initialization values, with every target deliberately
different from its live counterpart. -/
def oracle0 : InitOracle ℚ := ⟨[1], [2], [3], [4], [5], [6]⟩

/-- A concrete one-sample batch whose single transition is terminal. -/
def batch0 : Batch ℚ := ⟨[[2]], [[3]], [5], [[7]], [1]⟩

/-- The agent as constructed in training mode. -/
def agent0 : AgentState ℚ := (init_agent cfg0 oracle0).1

/-- The training-mode agent at the step-count cap of `cfg0`. -/
def agent_trunc : AgentState ℚ := { agent0 with episode_step := 3 }

/-- An environment response that reports `done = true`. -/
def resp_done : EnvResponse ℚ := ⟨[9], 2, true⟩

/-- A filesystem with no checkpoints at all. -/
def fs0 : String → Option (Checkpoint ℚ) := fun _ => none

/-- A path that exists in no modelled filesystem. -/
def missing_path : String := "save/missing.pt"

/-- A two-step environment script; the second step terminates the episode. -/
def script0 : List (EnvResponse ℚ × StepRand ℚ) :=
  [(⟨[1], 1, false⟩, ⟨[0], [0]⟩), (⟨[2], 1, true⟩, ⟨[0], [0]⟩)]

/-- A buffer-draw oracle that always picks index 0. -/
def idxO0 : ℕ → List ℕ := fun _ => [0]

/-- A concrete one-neuron actor MLP with no hidden layers. -/
def mlp0 : ActorMLP := ⟨[], ⟨[[1]], [0]⟩⟩

/-- A concrete evaluation-mode configuration over `ℝ`. -/
def cfgR : Config ℝ :=
  { test := true
    max_episode_steps := 3
    initial_random_action := 2
    buffer_size := 4
    batch_size := 1
    multiple_learn := 1
    gamma := 1
    tau := 1
    gradient_clip_ac := 1
    gradient_clip_cr := 1 }

/-- A concrete evaluation-mode agent over `ℝ`. -/
def agentR : AgentState ℝ :=
  { actor := []
    actor_target := []
    critic := []
    critic_target := []
    actor_optim := []
    critic_optim := []
    memory := none
    curr_state := [0]
    total_step := 0
    episode_step := 0
    i_episode := 0 }

theorem getD_map_of_lt {a b : Type} (f : a → b) (d : a) (e : b) :
    ∀ (l : List a) (i : ℕ), i < l.length → (l.map f).getD i e = f (l.getD i d) := by
  intro l
  induction l with
  | nil => intro i h; simp at h
  | cons x xs ih =>
      intro i h
      cases i with
      | zero => rfl
      | succ n => exact ih n (by simpa using h)

theorem getD_zipWith3_of_lt {a b c d : Type} (f : a → b → c → d)
    (da : a) (db : b) (dc : c) (dd : d) :
    ∀ (l1 : List a) (l2 : List b) (l3 : List c) (i : ℕ),
      i < l1.length → i < l2.length → i < l3.length →
      (zipWith3 f l1 l2 l3).getD i dd = f (l1.getD i da) (l2.getD i db) (l3.getD i dc) := by
  intro l1
  induction l1 with
  | nil => intro l2 l3 i h1 h2 h3; simp at h1
  | cons x xs ih =>
      intro l2 l3 i h1 h2 h3
      cases l2 with
      | nil => simp at h2
      | cons y ys =>
          cases l3 with
          | nil => simp at h3
          | cons z zs =>
              cases i with
              | zero => rfl
              | succ n =>
                  exact ih ys zs n (by simpa using h1) (by simpa using h2) (by simpa using h3)

/-- C1: in `update_model`, the bootstrapped TD target is
`reward + gamma * critic_target(next_state, actor_target(next_state)) * (1 - done)`;
hence every sample whose done flag is `1` has target exactly its reward. -/
theorem C1_terminal_target_is_reward (T : Torch α) (gamma : α)
    (actor_t critic_t : List α) (b : Batch α) (i : ℕ)
    (hr : b.rewards.length = b.dones.length)
    (hn : b.next_states.length = b.dones.length)
    (hi : i < b.dones.length)
    (hd : b.dones.getD i 0 = 1) :
    (curr_returns T gamma actor_t critic_t b).getD i 0 = b.rewards.getD i 0 := by
  have h1 : i < b.rewards.length := by omega
  have h2 : i < (List.zipWith (fun s a => T.criticForward critic_t (s ++ a))
      b.next_states (b.next_states.map (T.actorForward actor_t))).length := by
    simp only [List.length_zipWith, List.length_map, min_self]
    omega
  have h3 : i < (b.dones.map fun d => (1 : α) - d).length := by
    simpa using hi
  simp only [curr_returns]
  rw [getD_zipWith3_of_lt _ 0 0 0 0 _ _ _ i h1 h2 h3,
    getD_map_of_lt _ 0 0 _ i hi, hd, sub_self, mul_zero, add_zero]

/-- C1 witness: on a concrete one-sample terminal batch the target equals
the stored reward. -/
theorem C1_witness :
    batch0.dones.getD 0 0 = 1 ∧
    (curr_returns torch0 (1 / 2) [] [] batch0).getD 0 0 = batch0.rewards.getD 0 0 :=
  ⟨by decide,
   C1_terminal_target_is_reward torch0 (1 / 2) [] [] batch0 0
     (by decide) (by decide) (by decide) (by decide)⟩

theorem add_getLast (m : ReplayBuffer α) (t : Transition α) :
    (m.add t).data.getLast? = some t := by
  unfold ReplayBuffer.add
  split <;> simp

/-- C2: outside test mode, `step` stores the transition with
`done_bool = False if episode_step == max_episode_steps else done`: at the
step-count cap the stored flag is `false` regardless of the `done`
reported by the environment, and otherwise it equals that `done`. -/
theorem C2_truncation_stores_false (cfg : Config α) (ag : AgentState α)
    (action : List α) (resp : EnvResponse α) (m : ReplayBuffer α)
    (htest : cfg.test = false) (hm : ag.memory = some m) :
    (step cfg ag action resp).1.memory =
      some (m.add ⟨ag.curr_state, action, resp.reward, resp.next_state,
        if ag.episode_step = cfg.max_episode_steps then false else resp.done⟩) ∧
    (m.add ⟨ag.curr_state, action, resp.reward, resp.next_state,
        if ag.episode_step = cfg.max_episode_steps then false else resp.done⟩).data.getLast? =
      some ⟨ag.curr_state, action, resp.reward, resp.next_state,
        if ag.episode_step = cfg.max_episode_steps then false else resp.done⟩ ∧
    (ag.episode_step = cfg.max_episode_steps →
      (if ag.episode_step = cfg.max_episode_steps then false else resp.done) = false) ∧
    (ag.episode_step ≠ cfg.max_episode_steps →
      (if ag.episode_step = cfg.max_episode_steps then false else resp.done) = resp.done) := by
  refine ⟨?_, add_getLast m _, fun h => by simp [h], fun h => by simp [h]⟩
  simp [step, htest, hm]

/-- C2 witness: a concrete training-mode agent at the cap
(`episode_step = 3 = max_episode_steps`), with the environment reporting
`done = true`, stores the transition with done flag `false`. -/
theorem C2_witness :
    (step cfg0 agent_trunc [1] resp_done).1.memory =
      some ((⟨4, 1, []⟩ : ReplayBuffer ℚ).add
        ⟨agent_trunc.curr_state, [1], resp_done.reward, resp_done.next_state,
          if agent_trunc.episode_step = cfg0.max_episode_steps then false
          else resp_done.done⟩) ∧
    ((⟨4, 1, []⟩ : ReplayBuffer ℚ).add
        ⟨agent_trunc.curr_state, [1], resp_done.reward, resp_done.next_state,
          if agent_trunc.episode_step = cfg0.max_episode_steps then false
          else resp_done.done⟩).data.getLast? =
      some ⟨agent_trunc.curr_state, [1], resp_done.reward, resp_done.next_state,
          if agent_trunc.episode_step = cfg0.max_episode_steps then false
          else resp_done.done⟩ ∧
    (agent_trunc.episode_step = cfg0.max_episode_steps →
      (if agent_trunc.episode_step = cfg0.max_episode_steps then false
       else resp_done.done) = false) ∧
    (agent_trunc.episode_step ≠ cfg0.max_episode_steps →
      (if agent_trunc.episode_step = cfg0.max_episode_steps then false
       else resp_done.done) = resp_done.done) :=
  C2_truncation_stores_false cfg0 agent_trunc [1] resp_done ⟨4, 1, []⟩ rfl rfl

/-- C3: every `update_model` call executes exactly the stages
sample, critic optimizer step, actor optimizer step, soft update of the
actor target, soft update of the critic target — in that order,
unconditionally — and both targets end as the soft update of the
just-updated live networks toward the old targets. -/
theorem C3_update_order (T : Torch α) (cfg : Config α) (ag : AgentState α)
    (idxs : List ℕ) :
    (update_model T cfg ag idxs).events =
      [UpdateEvent.sampleBuffer, UpdateEvent.criticOptStep, UpdateEvent.actorOptStep,
       UpdateEvent.softUpdateActor, UpdateEvent.softUpdateCritic] ∧
    (update_model T cfg ag idxs).agent.actor_target =
      soft_update (update_model T cfg ag idxs).agent.actor ag.actor_target cfg.tau ∧
    (update_model T cfg ag idxs).agent.critic_target =
      soft_update (update_model T cfg ag idxs).agent.critic ag.critic_target cfg.tau :=
  ⟨rfl, rfl, rfl⟩

/-- C4: the actor loss returned by `update_model` is the negated mean of
the live, just-updated critic applied to a fresh actor forward pass, and
the new actor parameters are one optimizer step on gradients clipped at
`gradient_clip_ac`. -/
theorem C4_actor_update_uses_live_critic (T : Torch α) (cfg : Config α)
    (ag : AgentState α) (idxs : List ℕ) :
    (update_model T cfg ag idxs).actor_loss =
      -(mean ((memorySample ag.memory idxs).states.map fun s =>
        T.criticForward
          (critic_after_step T cfg ag.critic
            (mse_loss (critic_values T ag.critic (memorySample ag.memory idxs))
              (curr_returns T cfg.gamma ag.actor_target ag.critic_target
                (memorySample ag.memory idxs))))
          (s ++ T.actorForward ag.actor s))) ∧
    (update_model T cfg ag idxs).agent.actor =
      T.actorOptimStep ag.actor
        (T.clip_grad_norm
          (T.actorGrad (update_model T cfg ag idxs).actor_loss ag.actor)
          cfg.gradient_clip_ac) :=
  ⟨rfl, rfl⟩

/-- C10: immediately after `_init_network` (before any checkpoint load),
the parameters of each target network equal those of its live network, for
every fresh initialization — including ones where the targets were created
with different fresh parameters. -/
theorem C10_targets_initialized_equal (o : InitOracle α) :
    (init_network o).1.actor_target = (init_network o).1.actor ∧
    (init_network o).1.critic_target = (init_network o).1.critic :=
  ⟨rfl, rfl⟩

theorem select_action_fst (T : Torch α) (cfg : Config α) (ag : AgentState α)
    (state ra ns : List α) :
    (select_action T cfg ag state ra ns).1 = { ag with curr_state := state } := by
  unfold select_action
  dsimp only
  split
  · rfl
  · split <;> rfl

theorem step_fst_episode_step (cfg : Config α) (ag : AgentState α) (action : List α)
    (resp : EnvResponse α) :
    (step cfg ag action resp).1.episode_step = ag.episode_step := by
  unfold step
  split <;> rfl

theorem update_model_agent_memory (T : Torch α) (cfg : Config α) (ag : AgentState α)
    (idxs : List ℕ) :
    (update_model T cfg ag idxs).agent.memory = ag.memory := rfl

theorem update_model_agent_episode_step (T : Torch α) (cfg : Config α) (ag : AgentState α)
    (idxs : List ℕ) :
    (update_model T cfg ag idxs).agent.episode_step = ag.episode_step := rfl

theorem runUpdates_calls (T : Torch α) (cfg : Config α) (idxO : ℕ → List ℕ) :
    ∀ (n : ℕ) (ag : AgentState α) (cnt : ℕ),
      (runUpdates T cfg idxO n ag cnt).2.2 = List.replicate n (memoryLen ag) := by
  intro n
  induction n with
  | zero => intro ag cnt; rfl
  | succ k ih =>
      intro ag cnt
      have hmem : memoryLen ((update_model T cfg ag (idxO cnt)).agent) = memoryLen ag := rfl
      simp only [runUpdates, ih, hmem, List.replicate_succ]

theorem runUpdates_episode_step (T : Torch α) (cfg : Config α) (idxO : ℕ → List ℕ) :
    ∀ (n : ℕ) (ag : AgentState α) (cnt : ℕ),
      (runUpdates T cfg idxO n ag cnt).1.episode_step = ag.episode_step := by
  intro n
  induction n with
  | zero => intro ag cnt; rfl
  | succ k ih =>
      intro ag cnt
      simp only [runUpdates, ih, update_model_agent_episode_step]

theorem ite_upd_fst_episode_step (T : Torch α) (cfg : Config α) (idxO : ℕ → List ℕ)
    (b : Prop) [Decidable b] (n : ℕ) (ag : AgentState α) (cnt : ℕ) :
    ((if b then runUpdates T cfg idxO n ag cnt else (ag, cnt, [])).1).episode_step =
      ag.episode_step := by
  split
  · exact runUpdates_episode_step T cfg idxO n ag cnt
  · rfl

theorem select_action_episode_step (T : Torch α) (cfg : Config α) (ag : AgentState α)
    (state ra ns : List α) :
    (select_action T cfg ag state ra ns).1.episode_step = ag.episode_step := by
  rw [select_action_fst]

theorem train_loop_checkValues (T : Torch α) (cfg : Config α) (idxO : ℕ → List ℕ) :
    ∀ (script : List (EnvResponse α × StepRand α)) (ag : AgentState α)
      (state : List α) (cnt : ℕ),
      ((train_loop T cfg idxO script ag state cnt).2).map IterRecord.checkValue =
        (List.range ((train_loop T cfg idxO script ag state cnt).2).length).map
          (fun k => k + ag.episode_step) := by
  intro script
  induction script with
  | nil => intro ag state cnt; rfl
  | cons hd rest ih =>
      obtain ⟨resp, rnd⟩ := hd
      intro ag state cnt
      cases hdone : resp.done with
      | true =>
          simp only [train_loop, hdone, ↓reduceIte, List.map_cons, List.map_nil,
            List.length_cons, List.length_nil, List.range_succ, List.range_zero,
            List.nil_append, Nat.zero_add, select_action_episode_step]
      | false =>
          simp only [train_loop, hdone, Bool.false_eq_true, ↓reduceIte, List.map_cons,
            List.length_cons, ih, ite_upd_fst_episode_step, step_fst_episode_step,
            select_action_episode_step, List.range_succ_eq_map, List.map_map,
            Nat.zero_add, List.cons.injEq]
          refine ⟨trivial, ?_⟩
          apply List.map_congr_left
          intro k hk
          simp only [Function.comp]
          omega

/-- C9: during the k-th iteration (1-indexed) of the episode step loop,
the `episode_step` value read by the truncation check in `step` is `k - 1` —
the number of environment steps already completed earlier in the episode,
since the counter is incremented only after `step` returns. -/
theorem C9_episode_step_counts_completed_steps (T : Torch α) (cfg : Config α)
    (idxO : ℕ → List ℕ) (script : List (EnvResponse α × StepRand α))
    (ag : AgentState α) (state0 : List α) :
    ((train_episode T cfg idxO script ag state0).2).map IterRecord.checkValue =
      List.range ((train_episode T cfg idxO script ag state0).2).length := by
  unfold train_episode
  rw [train_loop_checkValues]
  simp

theorem train_loop_updateCalls (T : Torch α) (cfg : Config α) (idxO : ℕ → List ℕ) :
    ∀ (script : List (EnvResponse α × StepRand α)) (ag : AgentState α)
      (state : List α) (cnt : ℕ),
      ∀ r ∈ (train_loop T cfg idxO script ag state cnt).2,
        r.updateCalls = if cfg.batch_size ≤ r.memLen
                        then List.replicate cfg.multiple_learn r.memLen else [] := by
  intro script
  induction script with
  | nil => intro ag state cnt r hr; simp [train_loop] at hr
  | cons hd rest ih =>
      obtain ⟨resp, rnd⟩ := hd
      intro ag state cnt r hr
      cases hdone : resp.done with
      | true =>
          simp only [train_loop, hdone, ↓reduceIte, List.mem_singleton] at hr
          subst hr
          dsimp only
          split_ifs with hg
          · exact runUpdates_calls T cfg idxO cfg.multiple_learn _ cnt
          · rfl
      | false =>
          simp only [train_loop, hdone, Bool.false_eq_true, ↓reduceIte,
            List.mem_cons] at hr
          rcases hr with h1 | h2
          · subst h1
            dsimp only
            split_ifs with hg
            · exact runUpdates_calls T cfg idxO cfg.multiple_learn _ _
            · rfl
          · exact ih _ _ _ r h2

/-- C5: for every iteration of the training step loop, `update_model` runs
exactly `multiple_learn` times when the buffer holds at least `batch_size`
entries and zero times otherwise; the buffer length observed at every
single `update_model` call (hence at every buffer sample) is at least
`batch_size`. -/
theorem C5_update_gate (T : Torch α) (cfg : Config α) (idxO : ℕ → List ℕ)
    (script : List (EnvResponse α × StepRand α)) (ag : AgentState α) (state0 : List α)
    (r : IterRecord) (hr : r ∈ (train_episode T cfg idxO script ag state0).2) :
    r.updateCalls.length = (if cfg.batch_size ≤ r.memLen then cfg.multiple_learn else 0) ∧
    ∀ l ∈ r.updateCalls, cfg.batch_size ≤ l := by
  have h := train_loop_updateCalls T cfg idxO script { ag with episode_step := 0 } state0 0 r hr
  constructor
  · rw [h]; split_ifs with hg <;> simp
  · intro l hl
    rw [h] at hl
    by_cases hg : cfg.batch_size ≤ r.memLen
    · rw [if_pos hg] at hl
      have hlen := List.eq_of_mem_replicate hl
      omega
    · rw [if_neg hg] at hl
      simp at hl

/-- C5 witness: in a concrete two-step training run the first loop
iteration passes the gate (buffer length 1, batch size 1) and runs exactly
`multiple_learn = 2` updates, each observing a buffer of length at least
`batch_size`. -/
theorem C5_witness :
    (⟨0, 1, [1, 1]⟩ : IterRecord) ∈ (train_episode torch0 cfg0 idxO0 script0 agent0 [0]).2 ∧
    (⟨0, 1, [1, 1]⟩ : IterRecord).updateCalls.length =
      (if cfg0.batch_size ≤ (⟨0, 1, [1, 1]⟩ : IterRecord).memLen
       then cfg0.multiple_learn else 0) ∧
    (1 : ℕ) ∈ (⟨0, 1, [1, 1]⟩ : IterRecord).updateCalls ∧
    cfg0.batch_size ≤ 1 := by
  have hm : (⟨0, 1, [1, 1]⟩ : IterRecord) ∈
      (train_episode torch0 cfg0 idxO0 script0 agent0 [0]).2 := by decide
  have h := C5_update_gate torch0 cfg0 idxO0 script0 agent0 [0] _ hm
  exact ⟨hm, h.1, by decide, h.2 1 (by decide)⟩

/-- C6 counterexample: in a concrete test-mode construction the target
copies are still created (the claim says no target copies are created for
pure-evaluation runs, but `_init_network` builds all four networks
unconditionally; only the replay buffer is skipped). -/
theorem C6_counterexample :
    cfgTest.test = true ∧
    CreateEvent.createActorTarget ∈ (init_agent cfgTest oracle0).2 ∧
    CreateEvent.createCriticTarget ∈ (init_agent cfgTest oracle0).2 ∧
    (init_agent cfgTest oracle0).1.actor_target = [1] := by
  decide

/-- C6 amended: for pure-evaluation (test) runs, agent construction skips
the experience buffer, but the networks are built exactly as in training
mode: the live networks and both target copies, with each target
synchronized to its live counterpart. -/
theorem C6_test_mode_construction (cfg : Config α) (o : InitOracle α)
    (htest : cfg.test = true) :
    (init_agent cfg o).1.memory = none ∧
    CreateEvent.createReplayBuffer ∉ (init_agent cfg o).2 ∧
    CreateEvent.createActorTarget ∈ (init_agent cfg o).2 ∧
    CreateEvent.createCriticTarget ∈ (init_agent cfg o).2 ∧
    (init_agent cfg o).1.actor_target = (init_agent cfg o).1.actor ∧
    (init_agent cfg o).1.critic_target = (init_agent cfg o).1.critic := by
  simp [init_agent, init_network, load_state_dict, htest]

/-- C6 witness: the amended statement evaluated on the concrete test-mode
configuration. -/
theorem C6_witness :
    (init_agent cfgTest oracle0).1.memory = none ∧
    CreateEvent.createReplayBuffer ∉ (init_agent cfgTest oracle0).2 ∧
    CreateEvent.createActorTarget ∈ (init_agent cfgTest oracle0).2 ∧
    CreateEvent.createCriticTarget ∈ (init_agent cfgTest oracle0).2 ∧
    (init_agent cfgTest oracle0).1.actor_target = (init_agent cfgTest oracle0).1.actor ∧
    (init_agent cfgTest oracle0).1.critic_target = (init_agent cfgTest oracle0).1.critic :=
  C6_test_mode_construction cfgTest oracle0 rfl

theorem tanh_bounds (x : ℝ) : -1 ≤ Real.tanh x ∧ Real.tanh x ≤ 1 := by
  have upper : ∀ y : ℝ, Real.tanh y ≤ 1 := by
    intro y
    rw [Real.tanh_eq_sinh_div_cosh]
    exact (div_le_one (Real.cosh_pos y)).mpr (Real.sinh_lt_cosh y).le
  refine ⟨?_, upper x⟩
  have h := upper (-x)
  rw [Real.tanh_neg] at h
  linarith

/-- C7: in evaluation (test) mode, `select_action` returns exactly the
forward pass of the actor — no random warm-up action regardless of
`total_step`, no exploration noise — every output component lies in
`[-1, 1]` (from the tanh output activation of the MLP), and the result does not
depend on the noise or random-action draws. -/
theorem C7_test_mode_action (m : ActorMLP) (cfg : Config ℝ) (ag : AgentState ℝ)
    (state randomAction noiseSample randomAction2 noiseSample2 : List ℝ)
    (htest : cfg.test = true) :
    (select_action (torch_mlp m) cfg ag state randomAction noiseSample).2 = m.forward state ∧
    (∀ c ∈ (select_action (torch_mlp m) cfg ag state randomAction noiseSample).2,
      -1 ≤ c ∧ c ≤ 1) ∧
    (select_action (torch_mlp m) cfg ag state randomAction2 noiseSample2).2 =
      (select_action (torch_mlp m) cfg ag state randomAction noiseSample).2 := by
  have hsel : ∀ (ra ns : List ℝ),
      (select_action (torch_mlp m) cfg ag state ra ns).2 = m.forward state := by
    intro ra ns
    simp [select_action, htest, torch_mlp]
  refine ⟨hsel _ _, ?_, by rw [hsel, hsel]⟩
  intro c hc
  rw [hsel] at hc
  unfold ActorMLP.forward at hc
  rcases List.mem_map.mp hc with ⟨x, _, rfl⟩
  exact tanh_bounds x

/-- C7 witness: the theorem evaluated on a concrete one-neuron actor,
whose output on state `[0]` is `[tanh 0]`, with two different noise and
random-action draws. -/
theorem C7_witness :
    cfgR.test = true ∧
    (select_action (torch_mlp mlp0) cfgR agentR [0] [] []).2 = mlp0.forward [0] ∧
    (-1 ≤ (mlp0.forward [0]).getD 0 0 ∧ (mlp0.forward [0]).getD 0 0 ≤ 1) ∧
    (select_action (torch_mlp mlp0) cfgR agentR [0] [5] [7]).2 =
      (select_action (torch_mlp mlp0) cfgR agentR [0] [] []).2 := by
  obtain ⟨h1, h2, h4⟩ :=
    C7_test_mode_action mlp0 cfgR agentR [0] [] [] [5] [7] rfl
  refine ⟨rfl, h1, ?_, h4⟩
  have hfwd : mlp0.forward [0] = [Real.tanh 0] := by
    simp [mlp0, ActorMLP.forward, LinearLayer.forward, dot]
  have hmem : (mlp0.forward [0]).getD 0 0 ∈
      (select_action (torch_mlp mlp0) cfgR agentR [0] [] []).2 := by
    rw [h1, hfwd]
    simp
  exact h2 _ hmem

/-- C8: calling `load_params` with a path that does not exist reports an
error message and leaves the entire agent state — all four networks and
both optimizer states — exactly as it was. -/
theorem C8_load_missing_path_noop (fs : String → Option (Checkpoint α))
    (ag : AgentState α) (path : String) (h : fs path = none) :
    (load_params fs ag path).1 = ag ∧
    (load_params fs ag path).2 =
      ["[ERROR] the input path does not exist. -> " ++ path] := by
  simp [load_params, h]

/-- C8 witness: loading from a missing path on a concrete agent changes
nothing and prints the error line. -/
theorem C8_witness :
    fs0 missing_path = none ∧
    (load_params fs0 agent0 missing_path).1 = agent0 ∧
    (load_params fs0 agent0 missing_path).2 =
      ["[ERROR] the input path does not exist. -> " ++ missing_path] :=
  ⟨rfl, (C8_load_missing_path_noop fs0 agent0 missing_path rfl).1,
   (C8_load_missing_path_noop fs0 agent0 missing_path rfl).2⟩

end DDPG
